import Mathlib

/-!
Verification of the ENEM TRI score-estimation core (`src/tri_calculator/estimator.py`,
`src/tri_calculator/calculator.py`, `src/models/exam_area.py`, `src/models/exam_result.py`).

Shallow embedding conventions:
* Python `float` inputs, parameters and calibration data are modelled as `ℚ`
  (every user-facing number in the source is a decimal literal or a ratio of such);
  score estimates are `ℝ`, since the logistic fallback path uses `exp`.
* Python exceptions are modelled with `Except PyErr`; each `PyErr` constructor
  corresponds to one `raise ValueError(...)` site in the source.
* `numpy` calls are given their mathematical meaning: `np.median` sorts and takes
  the middle element (mean of the two middle elements for even length),
  `np.average(x, weights=w)` is `(Σ wᵢxᵢ) / (Σ wᵢ)`, `np.clip(x, lo, hi)` is
  `min hi (max lo x)`, and `scipy.stats.norm.ppf` is the quantile function of the
  standard normal distribution.
-/

/-- Insert an element into a sorted list, keeping it sorted (ascending). -/
def insertSorted {α : Type} [LinearOrder α] (x : α) : List α → List α
  | [] => [x]
  | y :: ys => if x ≤ y then x :: y :: ys else y :: insertSorted x ys

/-- Insertion sort (ascending); the sorted order of a list, as produced by
`np.median`'s internal sort and by Python's `sorted`. -/
def sortList {α : Type} [LinearOrder α] : List α → List α
  | [] => []
  | x :: xs => insertSorted x (sortList xs)

/-- `np.median`: middle element of the sorted list for odd length, mean of the
two middle elements for even length (0 for the empty list, which the source
never feeds to `np.median`). -/
def medianQ (l : List ℚ) : ℚ :=
  let s := sortList l
  let n := l.length
  if n % 2 = 1 then s[n/2]?.getD 0
  else ((s[n/2 - 1]?.getD 0) + (s[n/2]?.getD 0)) / 2

/-- `np.mean`: arithmetic mean of a list (0 for the empty list). -/
def meanQ (l : List ℚ) : ℚ := l.sum / l.length

/-- `np.average(l, weights=ws)` restricted to the weights `2^i` the source uses:
exponentially recency-weighted average. -/
def weightedAvgQ (l : List ℚ) : ℚ :=
  let ws := (List.range l.length).map (fun i => (2 : ℚ)^i)
  ((l.zip ws).map (fun p => p.1 * p.2)).sum / ws.sum

/-- `min(l)` of a nonempty Python list (0 for the empty list, never used). -/
def listMin (l : List ℚ) : ℚ :=
  match l with
  | [] => 0
  | x :: xs => xs.foldl min x

/-- `max(l)` of a nonempty Python list (0 for the empty list, never used). -/
def listMax (l : List ℚ) : ℚ :=
  match l with
  | [] => 0
  | x :: xs => xs.foldl max x

/-- `np.clip(x, lo, hi) = min(hi, max(lo, x))`. -/
def clipQ (x lo hi : ℚ) : ℚ := min hi (max lo x)

/-- The distinct `raise ValueError(...)` sites of the modelled source files.
Source messages:
* `essayScoreRange`: "Essay score must be between 0 and 1000"
  (`calculator.py`, `calculate_score`);
* `correctAnswersRange total`: "Correct answers must be between 0 and {total}"
  (`estimator.py`, `estimate_score`);
* `lengthMismatch`: "correct_answers and scores must have same length"
  (`estimator.py`, `set_historical_data`);
* `negativeCorrectAnswers`: "Number of correct answers cannot be negative"
  (`exam_area.py`, `ExamArea.__post_init__`);
* `exceedTotalQuestions ca tq`: "Correct answers ({ca}) cannot exceed total
  questions ({tq})" (`exam_area.py`, `ExamArea.__post_init__`);
* `scoreOutOfRange`: "Score {score} must be between 0 and 1000"
  (`exam_result.py`, `ExamResult.__post_init__`);
* `essayNotCalculated`: "Essay score must be provided directly, not calculated"
  (`calculator.py`, `calculate_area_score`);
* `essayNoConfidenceInterval`: "Confidence interval not applicable for essay"
  (`calculator.py`, `get_confidence_interval`);
* `invalidAreaType`: "Invalid area type: {area_type}" (`calculator.py`). -/
inductive PyErr where
  | essayScoreRange
  | correctAnswersRange (total : ℕ)
  | lengthMismatch
  | negativeCorrectAnswers
  | exceedTotalQuestions (ca : ℤ) (tq : ℕ)
  | scoreOutOfRange
  | essayNotCalculated
  | essayNoConfidenceInterval
  | invalidAreaType
  deriving DecidableEq, Repr

/-- State of `TriEstimator` (`estimator.py`).  The constructor parameters
`total_questions`, `min_score`, `max_score`, `mean_score`, `std_deviation` are
immutable population parameters; `histData` models the pair of parallel lists
`_historical_correct_answers` / `_historical_scores` (zipped — the source checks
they have equal length before storing them), `conversionFactor` models
`_conversion_factor`, and `scoreMap` models `_score_map`.  The source's
`_interpolator` is the closure `ca ↦ _conversion_factor * ca`, set to a non-`None`
value exactly when `_conversion_factor` is, so it is represented by
`conversionFactor` as well.  The unused diagnostic fields `area_name`,
`data_dir` and the stored-but-never-read `_historical_years` are omitted. -/
structure TriEstimator where
  total_questions : ℕ
  min_score : ℚ
  max_score : ℚ
  mean_score : ℚ
  std_deviation : ℚ
  histData : Option (List (ℤ × ℚ))
  conversionFactor : Option ℚ
  scoreMap : Option (List (ℤ × ℚ))
  deriving Repr

/-- `TriEstimator.__init__` with its default arguments
(45 questions, scores 300–900, mean 500, std 100, no calibration). -/
def TriEstimator.default : TriEstimator :=
  { total_questions := 45
    min_score := 300
    max_score := 900
    mean_score := 500
    std_deviation := 100
    histData := none
    conversionFactor := none
    scoreMap := none }

/-- The per-point conversion factors of `set_historical_data`:
`score / ca` for every historical point with `ca > 0` (zero and negative
counts are skipped by the `if ca > 0` guard). -/
def conversionFactors (pts : List (ℤ × ℚ)) : List ℚ :=
  (pts.filter (fun p => 0 < p.1)).map (fun p => p.2 / (p.1 : ℚ))

/-- The scores of the historical points whose correct-answer count equals `ca`
(`grouped[ca]` in `set_historical_data`). -/
def groupScores (pts : List (ℤ × ℚ)) (ca : ℤ) : List ℚ :=
  (pts.filter (fun p => p.1 = ca)).map Prod.snd

/-- The exact-match table `_score_map` built by `set_historical_data`:
for each distinct correct-answer count (in ascending order, as Python's
`sorted(grouped.keys())`), the mean of the scores sharing that count. -/
def buildScoreMap (pts : List (ℤ × ℚ)) : List (ℤ × ℚ) :=
  (sortList (pts.map Prod.fst).dedup).map (fun ca => (ca, meanQ (groupScores pts ca)))

/-- Python's `correct_answers in self._score_map` / `self._score_map[correct_answers]`
dictionary access on the association list representing `_score_map`. -/
def lookupScore (m : List (ℤ × ℚ)) (ca : ℤ) : Option ℚ :=
  (m.find? (fun p => p.1 = ca)).map Prod.snd

/-- `TriEstimator.set_historical_data` (`estimator.py` lines 61–117).
Raises `ValueError` when the two lists differ in length; returns unchanged
(no-op) with fewer than 2 points; otherwise stores the historical points,
the median per-point conversion factor (when at least one point has a
positive count) and the exact-match score table.  When every count is ≤ 0
the factor, interpolator and score map are all reset to `None`. -/
def TriEstimator.set_historical_data (e : TriEstimator)
    (correct_answers : List ℤ) (scores : List ℚ) : Except PyErr TriEstimator :=
  if correct_answers.length ≠ scores.length then
    .error .lengthMismatch
  else if correct_answers.length < 2 then
    .ok e
  else
    let pts := correct_answers.zip scores
    let factors := conversionFactors pts
    if factors.length ≠ 0 then
      .ok { e with
              histData := some pts
              conversionFactor := some (medianQ factors)
              scoreMap := some (buildScoreMap pts) }
    else
      .ok { e with
              histData := some pts
              conversionFactor := none
              scoreMap := none }

/-- `TriEstimator._calculate_growth_factor` (`estimator.py` lines 185–213):
recency-weighted (weights `2^i`) average of the year-over-year score ratios
`score[i]/score[i-1]` (pairs with a non-positive predecessor skipped),
clipped to `[0.9, 1.15]`; defaults to 1.0 with fewer than two scores or
no computable ratio. -/
def TriEstimator.growth_factor (e : TriEstimator) : ℚ :=
  match e.histData with
  | none => 1
  | some pts =>
    let scores := pts.map Prod.snd
    if scores.length < 2 then 1
    else
      let rates := (scores.zip scores.tail).filterMap
        (fun pr => if 0 < pr.1 then some (pr.2 / pr.1) else none)
      match rates with
      | [] => 1
      | _ => clipQ (weightedAvgQ rates) (9/10) (23/20)

/-- `TriEstimator.estimate_score_range` (`estimator.py` lines 120–183).
`None` without an interpolator (i.e. without a personal conversion factor) or
with fewer than 2 stored historical points; otherwise the triple
(pessimistic, calculated, optimistic) built from the residuals of the linear
personal model, clipped to `[300, 1000]`, swapped if inverted, with the
calculated score the growth-adjusted midpoint clipped into the band. -/
def TriEstimator.estimate_score_range (e : TriEstimator) (ca : ℤ) :
    Option (ℚ × ℚ × ℚ) :=
  match e.conversionFactor with
  | none => none
  | some f =>
    match e.histData with
    | none => none
    | some pts =>
      if pts.length < 2 then none
      else
        let base := f * (ca : ℚ)
        let errors := pts.map (fun p => p.2 - f * (p.1 : ℚ))
        let pessErr := (listMin errors + medianQ errors) / 2
        let optErr := (9/10 : ℚ) * listMax errors
        let pess0 := clipQ (base + pessErr) 300 1000
        let opt0 := clipQ (base + optErr) 300 1000
        let pess := if opt0 < pess0 then opt0 else pess0
        let opt := if opt0 < pess0 then pess0 else opt0
        let calcScore := clipQ ((pess + opt) / 2 * e.growth_factor) pess opt
        some (pess, calcScore, opt)

/-- `TriEstimator._estimate_with_logistic` (`estimator.py` lines 253–289):
`score = min_score + (max_score − min_score) / (1 + exp(−((ca/total − 0.5)/0.15)))`,
additionally clamped from below by `min_score` at `ca = 0` and from above by
`max_score` at `ca = total_questions`. -/
noncomputable def TriEstimator.estimate_with_logistic (e : TriEstimator) (ca : ℤ) : ℝ :=
  let proportion : ℝ := (ca : ℝ) / (e.total_questions : ℝ)
  let z : ℝ := (proportion - 0.5) / 0.15
  let scoreRange : ℝ := (e.max_score : ℝ) - (e.min_score : ℝ)
  let normalized : ℝ := 1 / (1 + Real.exp (-z))
  let score := (e.min_score : ℝ) + scoreRange * normalized
  if ca = 0 then max score (e.min_score : ℝ)
  else if (ca : ℤ) = (e.total_questions : ℤ) then min score (e.max_score : ℝ)
  else score

/-- `TriEstimator._estimate_with_linear` (`estimator.py` lines 291–308):
plain linear interpolation between `min_score` and `max_score`. -/
noncomputable def TriEstimator.estimate_with_linear (e : TriEstimator) (ca : ℤ) : ℝ :=
  let proportion : ℝ := (ca : ℝ) / (e.total_questions : ℝ)
  (e.min_score : ℝ) + proportion * ((e.max_score : ℝ) - (e.min_score : ℝ))

/-- `TriEstimator.estimate_score` (`estimator.py` lines 215–250).
Validates `0 ≤ ca ≤ total_questions` (raising `ValueError` otherwise), then
resolves in priority order: exact-match table, personal linear factor
(`_interpolator`), logistic fallback (`use_logistic` defaults to `true` at
every call site of the repository; `false` selects the linear fallback). -/
noncomputable def TriEstimator.estimate_score (e : TriEstimator) (ca : ℤ)
    (use_logistic : Bool) : Except PyErr ℝ :=
  if ca < 0 ∨ (e.total_questions : ℤ) < ca then
    .error (.correctAnswersRange e.total_questions)
  else
    match e.scoreMap.bind (fun m => lookupScore m ca) with
    | some v => .ok (v : ℝ)
    | none =>
      match e.conversionFactor with
      | some f => .ok ((f * (ca : ℚ) : ℚ) : ℝ)
      | none =>
        if use_logistic then .ok (e.estimate_with_logistic ca)
        else .ok (e.estimate_with_linear ca)

/-- The cumulative distribution function of the standard normal distribution:
`Φ(x) = ∫_{-∞}^{x} exp(-t²/2)/√(2π) dt`, written with Mathlib's
`ProbabilityTheory.gaussianPDFReal 0 1`.  This is the mathematical meaning of
`scipy.stats.norm.cdf`. -/
noncomputable def stdNormCDF (x : ℝ) : ℝ :=
  ∫ t in Set.Iic x, ProbabilityTheory.gaussianPDFReal 0 1 t

/-- The quantile function (inverse CDF) of the standard normal distribution,
the mathematical meaning of `scipy.stats.norm.ppf`: the inverse of
`stdNormCDF` (via `Function.invFun`; `stdNormCDF` is a strictly monotone
bijection onto `(0,1)`, as proved below, so on `(0,1)` this is the genuine
inverse). -/
noncomputable def normPpf (p : ℝ) : ℝ := Function.invFun stdNormCDF p

/-- `TriEstimator.get_confidence_interval` (`estimator.py` lines 336–365):
`margin = ppf((1+confidence)/2) × std_deviation/√total_questions`; bounds are
`max(min_score, score − margin)` and `min(max_score, score + margin)`.
The `ValueError` of `estimate_score` on an out-of-range count propagates. -/
noncomputable def TriEstimator.get_confidence_interval (e : TriEstimator)
    (ca : ℤ) (confidence : ℝ) : Except PyErr (ℝ × ℝ) :=
  (e.estimate_score ca true).map (fun score =>
    let standardError : ℝ := (e.std_deviation : ℝ) / Real.sqrt (e.total_questions : ℝ)
    let z : ℝ := normPpf ((1 + confidence) / 2)
    let margin := z * standardError
    (max (e.min_score : ℝ) (score - margin), min (e.max_score : ℝ) (score + margin)))

/-- `AreaType` enumeration (`exam_area.py`). -/
inductive AreaType where
  | mathematics
  | languages
  | natural_sciences
  | human_sciences
  | essay
  deriving DecidableEq, Repr

/-- `ExamArea` dataclass (`exam_area.py`). -/
structure ExamArea where
  area_type : AreaType
  total_questions : ℕ
  correct_answers : ℤ
  score : Option ℝ

/-- `ExamArea` construction including `__post_init__` validation
(`exam_area.py` lines 39–48): negative counts and counts exceeding the total
raise `ValueError`. -/
def ExamArea.build (area_type : AreaType) (total_questions : ℕ)
    (correct_answers : ℤ) (score : Option ℝ) : Except PyErr ExamArea :=
  if correct_answers < 0 then
    .error .negativeCorrectAnswers
  else if (total_questions : ℤ) < correct_answers then
    .error (.exceedTotalQuestions correct_answers total_questions)
  else
    .ok ⟨area_type, total_questions, correct_answers, score⟩

/-- `ExamResult` dataclass (`exam_result.py`).  The five per-area scores plus
the optional pessimistic/calculated/optimistic triples.  The display-only
`areas` dictionary (a copy of the `ExamArea` inputs) is omitted; its
construction-time validation is modelled inside `calculate_score`. -/
structure ExamResult where
  mathematics_score : ℝ
  languages_score : ℝ
  natural_sciences_score : ℝ
  human_sciences_score : ℝ
  essay_score : ℝ
  mathematics_pessimistic : Option ℝ
  mathematics_calculated : Option ℝ
  mathematics_optimistic : Option ℝ
  languages_pessimistic : Option ℝ
  languages_calculated : Option ℝ
  languages_optimistic : Option ℝ
  natural_sciences_pessimistic : Option ℝ
  natural_sciences_calculated : Option ℝ
  natural_sciences_optimistic : Option ℝ
  human_sciences_pessimistic : Option ℝ
  human_sciences_calculated : Option ℝ
  human_sciences_optimistic : Option ℝ

open Classical in
/-- `ExamResult` construction including `__post_init__` validation
(`exam_result.py` lines 53–65): each of the five main scores must lie in
`[0, 1000]`, otherwise `ValueError` is raised (checking them in field order,
as the Python loop does). -/
noncomputable def ExamResult.build
    (ms ls ns hs es : ℝ)
    (mp mc mo lp lc lo sp sc so hp hc ho : Option ℝ) : Except PyErr ExamResult :=
  if ms < 0 ∨ 1000 < ms then .error .scoreOutOfRange
  else if ls < 0 ∨ 1000 < ls then .error .scoreOutOfRange
  else if ns < 0 ∨ 1000 < ns then .error .scoreOutOfRange
  else if hs < 0 ∨ 1000 < hs then .error .scoreOutOfRange
  else if es < 0 ∨ 1000 < es then .error .scoreOutOfRange
  else .ok ⟨ms, ls, ns, hs, es, mp, mc, mo, lp, lc, lo, sp, sc, so, hp, hc, ho⟩

/-- State of `TriCalculator` (`calculator.py`): the per-area question count and
one `TriEstimator` per objective area (the `estimators` dictionary holds
exactly these four keys; Essay has no estimator).  Parameter resolution from
cached statistics happens in `__init__` before this state exists and only
determines the estimators' numeric parameters, so it is left abstract. -/
structure TriCalculator where
  total_questions : ℕ
  mathematicsEst : TriEstimator
  languagesEst : TriEstimator
  natural_sciencesEst : TriEstimator
  human_sciencesEst : TriEstimator

/-- Python's `self.estimators[area_type]` dictionary access: the four objective
areas map to their estimator, Essay is absent from the dictionary. -/
def TriCalculator.estimatorFor (c : TriCalculator) : AreaType → Option TriEstimator
  | .mathematics => some c.mathematicsEst
  | .languages => some c.languagesEst
  | .natural_sciences => some c.natural_sciencesEst
  | .human_sciences => some c.human_sciencesEst
  | .essay => none

/-- A `TriCalculator` whose four estimators all carry the fixed default
parameters (300/900/500/100, 45 questions) and no calibration. -/
def TriCalculator.default : TriCalculator :=
  { total_questions := 45
    mathematicsEst := TriEstimator.default
    languagesEst := TriEstimator.default
    natural_sciencesEst := TriEstimator.default
    human_sciencesEst := TriEstimator.default }

/-- `TriCalculator.calculate_area_score` (`calculator.py` lines 303–329):
`ValueError` for Essay, `ValueError` for an area missing from the estimators
dictionary (unreachable for the four objective areas), else delegation to the
area's estimator. -/
noncomputable def TriCalculator.calculate_area_score (c : TriCalculator)
    (area_type : AreaType) (ca : ℤ) : Except PyErr ℝ :=
  if area_type = .essay then .error .essayNotCalculated
  else
    match c.estimatorFor area_type with
    | none => .error .invalidAreaType
    | some e => e.estimate_score ca true

/-- `TriCalculator.get_confidence_interval` (`calculator.py` lines 331–357):
`ValueError` for Essay, else delegation to the area's estimator. -/
noncomputable def TriCalculator.get_confidence_interval (c : TriCalculator)
    (area_type : AreaType) (ca : ℤ) (confidence : ℝ) : Except PyErr (ℝ × ℝ) :=
  if area_type = .essay then .error .essayNoConfidenceInterval
  else
    match c.estimatorFor area_type with
    | none => .error .invalidAreaType
    | some e => e.get_confidence_interval ca confidence

/-- `TriCalculator.calculate_score` (`calculator.py` lines 190–301), in source
order: essay-score validation; construction (with validation) of the five
`ExamArea` objects; the four point estimates; the four optional ranges;
`ExamResult` construction (with validation).  The essay score passes through
to the result unmodified. -/
noncomputable def TriCalculator.calculate_score (c : TriCalculator)
    (mathematics languages natural_sciences human_sciences : ℤ)
    (essay_score : ℚ) : Except PyErr ExamResult :=
  if essay_score < 0 ∨ 1000 < essay_score then .error .essayScoreRange
  else do
    let _ ← ExamArea.build .mathematics c.total_questions mathematics none
    let _ ← ExamArea.build .languages c.total_questions languages none
    let _ ← ExamArea.build .natural_sciences c.total_questions natural_sciences none
    let _ ← ExamArea.build .human_sciences c.total_questions human_sciences none
    let _ ← ExamArea.build .essay 1 1 (some (essay_score : ℝ))
    let math_score ← c.mathematicsEst.estimate_score mathematics true
    let lang_score ← c.languagesEst.estimate_score languages true
    let nat_score ← c.natural_sciencesEst.estimate_score natural_sciences true
    let hum_score ← c.human_sciencesEst.estimate_score human_sciences true
    let math_range := c.mathematicsEst.estimate_score_range mathematics
    let lang_range := c.languagesEst.estimate_score_range languages
    let nat_range := c.natural_sciencesEst.estimate_score_range natural_sciences
    let hum_range := c.human_sciencesEst.estimate_score_range human_sciences
    ExamResult.build math_score lang_score nat_score hum_score (essay_score : ℝ)
      (math_range.map (fun t => (t.1 : ℝ)))
      (math_range.map (fun t => (t.2.1 : ℝ)))
      (math_range.map (fun t => (t.2.2 : ℝ)))
      (lang_range.map (fun t => (t.1 : ℝ)))
      (lang_range.map (fun t => (t.2.1 : ℝ)))
      (lang_range.map (fun t => (t.2.2 : ℝ)))
      (nat_range.map (fun t => (t.1 : ℝ)))
      (nat_range.map (fun t => (t.2.1 : ℝ)))
      (nat_range.map (fun t => (t.2.2 : ℝ)))
      (hum_range.map (fun t => (t.1 : ℝ)))
      (hum_range.map (fun t => (t.2.1 : ℝ)))
      (hum_range.map (fun t => (t.2.2 : ℝ)))

/-- A calibrated estimator state with a decreasing score history
(the adversarial case named by C3), as `set_historical_data [20, 30] [650, 500]`
produces it: per-point factors `650/20 = 65/2` and `500/30 = 50/3`,
median `295/12`. -/
def calibDecreasing : TriEstimator :=
  { TriEstimator.default with
      histData := some [(20, 650), (30, 500)]
      conversionFactor := some (295/12)
      scoreMap := some [(20, 650), (30, 500)] }

/-- A calibrated estimator state with a small personal factor, as
`set_historical_data [10, 20] [100, 200]` produces it: per-point factors
`100/10 = 200/20 = 10`, median `10`, exact-match table
`{10 ↦ 100, 20 ↦ 200}`. -/
def calibLow : TriEstimator :=
  { TriEstimator.default with
      histData := some [(10, 100), (20, 200)]
      conversionFactor := some 10
      scoreMap := some [(10, 100), (20, 200)] }

/-- A calculator whose four estimators all carry the `calibLow` calibration. -/
def calibLowCalc : TriCalculator :=
  { total_questions := 45
    mathematicsEst := calibLow
    languagesEst := calibLow
    natural_sciencesEst := calibLow
    human_sciencesEst := calibLow }

/-- The estimator state `set_historical_data [20, 30] [500, 650]` produces:
per-point factors `500/20 = 25` and `650/30 = 65/3`, median `70/3`,
exact-match table `{20 ↦ 500, 30 ↦ 650}` (the spec's round-trip example). -/
def roundTripEst : TriEstimator :=
  { TriEstimator.default with
      histData := some [(20, 500), (30, 650)]
      conversionFactor := some (70/3)
      scoreMap := some [(20, 500), (30, 650)] }

/-- The estimator state `set_historical_data [50, 20] [600, 500]` produces
(the first count exceeds the 45 questions, which `set_historical_data` does
not validate): per-point factors `12` and `25`, median `37/2`, exact-match
table `{20 ↦ 500, 50 ↦ 600}`. -/
def outOfRangeCalib : TriEstimator :=
  { TriEstimator.default with
      histData := some [(50, 600), (20, 500)]
      conversionFactor := some (37/2)
      scoreMap := some [(20, 500), (50, 600)] }

/-- An estimator with a degenerate population score range
`min_score = max_score = 500` (the `TriEstimator` constructor accepts any
parameters) and no calibration. -/
def degenEst : TriEstimator :=
  { total_questions := 45
    min_score := 500
    max_score := 500
    mean_score := 500
    std_deviation := 100
    histData := none
    conversionFactor := none
    scoreMap := none }

/-- The `ExamResult` that `calibLowCalc.calculate_score 10 0 0 0 500`
produces: the Mathematics exact-match score 100, factor-path scores 0 for the
other three areas, pass-through essay 500, and (300, 300, 300) ranges. -/
def resultLow : ExamResult :=
  { mathematics_score := 100
    languages_score := 0
    natural_sciences_score := 0
    human_sciences_score := 0
    essay_score := 500
    mathematics_pessimistic := some 300
    mathematics_calculated := some 300
    mathematics_optimistic := some 300
    languages_pessimistic := some 300
    languages_calculated := some 300
    languages_optimistic := some 300
    natural_sciences_pessimistic := some 300
    natural_sciences_calculated := some 300
    natural_sciences_optimistic := some 300
    human_sciences_pessimistic := some 300
    human_sciences_calculated := some 300
    human_sciences_optimistic := some 300 }

/-- Classifies the errors raised during `ExamArea` construction
(`ExamArea.__post_init__`), as opposed to the other validation errors. -/
def PyErr.isExamAreaError : PyErr → Bool
  | .negativeCorrectAnswers => true
  | .exceedTotalQuestions _ _ => true
  | _ => false

/-! ## Basic properties of the numeric helpers -/

theorem clipQ_lower {x lo hi : ℚ} (h : lo ≤ hi) : lo ≤ clipQ x lo hi :=
  le_min h (le_max_left _ _)

theorem clipQ_upper (x lo hi : ℚ) : clipQ x lo hi ≤ hi :=
  min_le_left _ _

/-! ## Claim C3 -/

/-- **C3.** Without a personal conversion factor (the interpolator) or without at
least 2 stored historical points, `estimate_score_range` returns `None`
("unavailable"); for every estimator calibrated with a factor and ≥ 2 stored
points — whatever the historical data, including all-identical or decreasing
score histories — and every correct-answer count, it returns a triple
`(pessimistic, calculated, optimistic)` with
`300 ≤ pessimistic ≤ calculated ≤ optimistic ≤ 1000` and `calculated` equal to
the growth-adjusted midpoint clipped into the band. -/
theorem estimate_score_range_spec :
    (∀ (e : TriEstimator) (ca : ℤ),
      (e.conversionFactor = none ∨ e.histData = none ∨
        (∀ pts, e.histData = some pts → pts.length < 2)) →
      e.estimate_score_range ca = none)
    ∧ (∀ (e : TriEstimator) (f : ℚ) (pts : List (ℤ × ℚ)),
        e.conversionFactor = some f → e.histData = some pts → 2 ≤ pts.length →
        ∀ ca : ℤ, ∃ p c o : ℚ,
          e.estimate_score_range ca = some (p, c, o) ∧
          300 ≤ p ∧ p ≤ c ∧ c ≤ o ∧ o ≤ 1000 ∧
          c = clipQ ((p + o) / 2 * e.growth_factor) p o) := by
  constructor
  · intro e ca h
    unfold TriEstimator.estimate_score_range
    rcases hcf : e.conversionFactor with _ | f
    · rfl
    · rcases hh : e.histData with _ | pts
      · rfl
      · rcases h with h | h | h
        · rw [hcf] at h; exact absurd h (by simp)
        · rw [hh] at h; exact absurd h (by simp)
        · simp only [if_pos (h pts hh)]
  · intro e f pts hcf hh hlen ca
    have hcut : ¬ pts.length < 2 := by omega
    simp only [TriEstimator.estimate_score_range, hcf, hh, hcut, if_false]
    set base := f * (ca : ℚ) with hbase
    set errors := pts.map (fun p => p.2 - f * (p.1 : ℚ)) with herr
    set pess0 := clipQ (base + (listMin errors + medianQ errors) / 2) 300 1000 with hpess0
    set opt0 := clipQ (base + (9/10 : ℚ) * listMax errors) 300 1000 with hopt0
    have h300 : (300 : ℚ) ≤ 1000 := by norm_num
    have hp0 := clipQ_lower (x := base + (listMin errors + medianQ errors) / 2) h300
    have hp1 := clipQ_upper (base + (listMin errors + medianQ errors) / 2) 300 1000
    have ho0 := clipQ_lower (x := base + (9/10 : ℚ) * listMax errors) h300
    have ho1 := clipQ_upper (base + (9/10 : ℚ) * listMax errors) 300 1000
    rw [← hpess0] at hp0 hp1
    rw [← hopt0] at ho0 ho1
    by_cases hswap : opt0 < pess0
    · simp only [if_pos hswap]
      exact ⟨opt0, _, pess0, rfl, ho0, clipQ_lower hswap.le, clipQ_upper _ _ _, hp1, rfl⟩
    · simp only [if_neg hswap]
      push_neg at hswap
      exact ⟨pess0, _, opt0, rfl, hp0, clipQ_lower hswap, clipQ_upper _ _ _, ho1, rfl⟩

/-- Witness for C3: the uncalibrated default estimator gets `None`, and the
calibrated decreasing-history estimator gets an ordered triple at `ca = 25`. -/
theorem estimate_score_range_spec_witness :
    TriEstimator.default.estimate_score_range 25 = none
    ∧ ∃ p c o : ℚ,
        calibDecreasing.estimate_score_range 25 = some (p, c, o) ∧
        300 ≤ p ∧ p ≤ c ∧ c ≤ o ∧ o ≤ 1000 ∧
        c = clipQ ((p + o) / 2 * calibDecreasing.growth_factor) p o :=
  ⟨estimate_score_range_spec.1 TriEstimator.default 25 (Or.inl rfl),
   estimate_score_range_spec.2 calibDecreasing (295/12) [(20, 650), (30, 500)]
     rfl rfl (by norm_num) 25⟩

/-! ## Claim C7 -/

/-- With equal-length inputs `set_historical_data` always succeeds. -/
theorem set_historical_data_ok (e : TriEstimator) (cas : List ℤ)
    (scores : List ℚ) (h : cas.length = scores.length) :
    ∃ e', e.set_historical_data cas scores = .ok e' := by
  unfold TriEstimator.set_historical_data
  rw [if_neg (by simp [h])]
  by_cases h2 : cas.length < 2
  · rw [if_pos h2]; exact ⟨e, rfl⟩
  · rw [if_neg h2]
    simp only
    split
    · exact ⟨_, rfl⟩
    · exact ⟨_, rfl⟩

/-- **C7.** `set_historical_data` fails, and fails with the `LengthMismatch`
error, exactly when the two lists differ in length; the length check precedes
every state write, so on failure no calibration state is produced and the
caller's previous estimator state is left untouched (in this functional
embedding: the error branch returns before any updated state is built).
With equal-length lists of fewer than 2 points it returns the estimator
unchanged (no-op). -/
theorem set_historical_data_spec (e : TriEstimator)
    (cas : List ℤ) (scores : List ℚ) :
    (e.set_historical_data cas scores = .error .lengthMismatch ↔
      cas.length ≠ scores.length)
    ∧ (cas.length = scores.length → ∃ e', e.set_historical_data cas scores = .ok e')
    ∧ (cas.length = scores.length → cas.length < 2 →
        e.set_historical_data cas scores = .ok e) := by
  refine ⟨⟨fun h => ?_, fun h => ?_⟩, set_historical_data_ok e cas scores, fun h h2 => ?_⟩
  · intro hne
    obtain ⟨e', he'⟩ := set_historical_data_ok e cas scores hne
    rw [he'] at h
    exact Except.noConfusion h
  · unfold TriEstimator.set_historical_data
    rw [if_pos h]
  · unfold TriEstimator.set_historical_data
    rw [if_neg (by simp [h]), if_pos h2]

/-- Witness for C7: `set_historical_data([1,2,3], [1.0, 2.0])` fails with
`LengthMismatch` (the spec's own example), and a single equal-length point is
a no-op. -/
theorem set_historical_data_spec_witness :
    TriEstimator.default.set_historical_data [1, 2, 3] [1, 2] =
      .error .lengthMismatch
    ∧ TriEstimator.default.set_historical_data [5] [3] = .ok TriEstimator.default :=
  ⟨(set_historical_data_spec TriEstimator.default [1, 2, 3] [1, 2]).1.mpr (by decide),
   (set_historical_data_spec TriEstimator.default [5] [3]).2.2 (by decide) (by decide)⟩

/-! ## The logistic fallback path -/

theorem sigmoid_pos (z : ℝ) : 0 < 1 / (1 + Real.exp (-z)) := by positivity

theorem sigmoid_lt_one (z : ℝ) : 1 / (1 + Real.exp (-z)) < 1 := by
  rw [div_lt_one (by positivity)]
  linarith [Real.exp_pos (-z)]

/-- With `min_score ≤ max_score` the endpoint clamps of
`_estimate_with_logistic` are no-ops and the method computes exactly the
spec's formula `min_score + (max_score − min_score)·(1/(1+e^(−z)))`. -/
theorem estimate_with_logistic_eq (e : TriEstimator)
    (h : e.min_score ≤ e.max_score) (ca : ℤ) :
    e.estimate_with_logistic ca =
      (e.min_score : ℝ) + ((e.max_score : ℝ) - (e.min_score : ℝ)) *
        (1 / (1 + Real.exp (-(((ca : ℝ) / (e.total_questions : ℝ) - 0.5) / 0.15)))) := by
  have hr : (0:ℝ) ≤ (e.max_score : ℝ) - (e.min_score : ℝ) := by
    rw [sub_nonneg]; exact_mod_cast h
  simp only [TriEstimator.estimate_with_logistic]
  set z : ℝ := (((ca : ℝ) / (e.total_questions : ℝ)) - 0.5) / 0.15 with hz
  set s : ℝ := 1 / (1 + Real.exp (-z)) with hs
  have hge : (e.min_score : ℝ) ≤
      (e.min_score : ℝ) + ((e.max_score : ℝ) - (e.min_score : ℝ)) * s := by
    nlinarith [sigmoid_pos z]
  have hle : (e.min_score : ℝ) + ((e.max_score : ℝ) - (e.min_score : ℝ)) * s ≤
      (e.max_score : ℝ) := by
    nlinarith [sigmoid_lt_one z]
  split
  · exact max_eq_left hge
  · split
    · exact min_eq_left hle
    · rfl

/-- The logistic path stays within `[min_score, max_score]`. -/
theorem estimate_with_logistic_bounds (e : TriEstimator)
    (h : e.min_score ≤ e.max_score) (ca : ℤ) :
    (e.min_score : ℝ) ≤ e.estimate_with_logistic ca ∧
      e.estimate_with_logistic ca ≤ (e.max_score : ℝ) := by
  rw [estimate_with_logistic_eq e h ca]
  have hr : (0:ℝ) ≤ (e.max_score : ℝ) - (e.min_score : ℝ) := by
    rw [sub_nonneg]; exact_mod_cast h
  constructor
  · nlinarith [sigmoid_pos ((((ca : ℝ) / (e.total_questions : ℝ)) - 0.5) / 0.15)]
  · nlinarith [sigmoid_lt_one ((((ca : ℝ) / (e.total_questions : ℝ)) - 0.5) / 0.15)]

/-- The logistic path is monotone in the correct-answer count. -/
theorem estimate_with_logistic_mono (e : TriEstimator)
    (h : e.min_score ≤ e.max_score) (htq : 0 < e.total_questions)
    {ca1 ca2 : ℤ} (hle : ca1 ≤ ca2) :
    e.estimate_with_logistic ca1 ≤ e.estimate_with_logistic ca2 := by
  rw [estimate_with_logistic_eq e h, estimate_with_logistic_eq e h]
  have hr : (0:ℝ) ≤ (e.max_score : ℝ) - (e.min_score : ℝ) := by
    rw [sub_nonneg]; exact_mod_cast h
  have hT : (0:ℝ) < (e.total_questions : ℝ) := by exact_mod_cast htq
  have hca : (ca1 : ℝ) ≤ (ca2 : ℝ) := by exact_mod_cast hle
  have hz : (((ca1 : ℝ) / (e.total_questions : ℝ)) - 0.5) / 0.15 ≤
      (((ca2 : ℝ) / (e.total_questions : ℝ)) - 0.5) / 0.15 := by
    gcongr
  have hexp : Real.exp (-((((ca2 : ℝ) / (e.total_questions : ℝ)) - 0.5) / 0.15)) ≤
      Real.exp (-((((ca1 : ℝ) / (e.total_questions : ℝ)) - 0.5) / 0.15)) :=
    Real.exp_le_exp.mpr (by linarith)
  have hsig : 1 / (1 + Real.exp (-((((ca1 : ℝ) / (e.total_questions : ℝ)) - 0.5) / 0.15))) ≤
      1 / (1 + Real.exp (-((((ca2 : ℝ) / (e.total_questions : ℝ)) - 0.5) / 0.15))) := by
    apply one_div_le_one_div_of_le (by positivity) (by linarith)
  nlinarith [hsig, hr]

/-! ## Case analysis of `estimate_score` -/

/-- For an in-range count `estimate_score` always succeeds. -/
theorem estimate_score_in_range_ok (e : TriEstimator) (ca : ℤ)
    (h0 : 0 ≤ ca) (h1 : ca ≤ (e.total_questions : ℤ)) (ul : Bool) :
    ∃ v, e.estimate_score ca ul = .ok v := by
  unfold TriEstimator.estimate_score
  rw [if_neg (by omega)]
  rcases e.scoreMap.bind (fun m => lookupScore m ca) with _ | v
  · rcases e.conversionFactor with _ | f
    · cases ul
      · exact ⟨_, rfl⟩
      · exact ⟨_, rfl⟩
    · exact ⟨_, rfl⟩
  · exact ⟨_, rfl⟩

/-- Out-of-range counts raise `ValueError`. -/
theorem estimate_score_out_of_range (e : TriEstimator) {ca : ℤ}
    (h : ca < 0 ∨ (e.total_questions : ℤ) < ca) (ul : Bool) :
    e.estimate_score ca ul = .error (.correctAnswersRange e.total_questions) := by
  unfold TriEstimator.estimate_score
  rw [if_pos h]

/-- Priority 1: an exact-match table hit is returned verbatim. -/
theorem estimate_score_exact (e : TriEstimator) (ca : ℤ) (m : List (ℤ × ℚ)) (v : ℚ)
    (h0 : 0 ≤ ca) (h1 : ca ≤ (e.total_questions : ℤ))
    (hm : e.scoreMap = some m) (hv : lookupScore m ca = some v) (ul : Bool) :
    e.estimate_score ca ul = .ok (v : ℝ) := by
  unfold TriEstimator.estimate_score
  rw [if_neg (by omega)]
  simp only [hm, Option.some_bind, hv]

/-- Priority 2: without a table hit, the personal factor path returns
`factor × correct_answers`. -/
theorem estimate_score_factor (e : TriEstimator) (ca : ℤ) (f : ℚ)
    (h0 : 0 ≤ ca) (h1 : ca ≤ (e.total_questions : ℤ))
    (hm : e.scoreMap.bind (fun m => lookupScore m ca) = none)
    (hf : e.conversionFactor = some f) (ul : Bool) :
    e.estimate_score ca ul = .ok ((f * (ca : ℚ) : ℚ) : ℝ) := by
  unfold TriEstimator.estimate_score
  rw [if_neg (by omega)]
  simp only [hm, hf]

/-- Priority 3: with neither, the logistic fallback fires. -/
theorem estimate_score_logistic (e : TriEstimator) (ca : ℤ)
    (h0 : 0 ≤ ca) (h1 : ca ≤ (e.total_questions : ℤ))
    (hm : e.scoreMap.bind (fun m => lookupScore m ca) = none)
    (hf : e.conversionFactor = none) :
    e.estimate_score ca true = .ok (e.estimate_with_logistic ca) := by
  unfold TriEstimator.estimate_score
  rw [if_neg (by omega)]
  simp only [hm, hf, if_true]

/-! ## Claim C1 -/

/-- **C1.** Contract of `estimate_score` (with sane population parameters
`min_score ≤ max_score`): the call fails with the `InvalidInput` error naming
the valid range exactly when `correct_answers < 0` or
`correct_answers > total_questions`; otherwise resolution is
first-match-wins: (1) an exact-match-table hit is returned verbatim; (2) else
an existing personal linear factor gives `factor × correct_answers`; (3) else
the logistic population model
`min_score + (max_score − min_score)·(1/(1 + e^(−((ca/total − 0.5)/0.15))))`. -/
theorem estimate_score_contract (e : TriEstimator)
    (hmm : e.min_score ≤ e.max_score) (ca : ℤ) :
    ((ca < 0 ∨ (e.total_questions : ℤ) < ca) ↔
      e.estimate_score ca true = .error (.correctAnswersRange e.total_questions))
    ∧ (0 ≤ ca → ca ≤ (e.total_questions : ℤ) →
        (∀ m v, e.scoreMap = some m → lookupScore m ca = some v →
          e.estimate_score ca true = .ok (v : ℝ))
        ∧ (e.scoreMap.bind (fun m => lookupScore m ca) = none →
            (∀ f, e.conversionFactor = some f →
              e.estimate_score ca true = .ok ((f * (ca : ℚ) : ℚ) : ℝ))
            ∧ (e.conversionFactor = none →
                e.estimate_score ca true = .ok ((e.min_score : ℝ) +
                  ((e.max_score : ℝ) - (e.min_score : ℝ)) *
                  (1 / (1 + Real.exp (-(((ca : ℝ) / (e.total_questions : ℝ) - 0.5) / 0.15)))))))) := by
  refine ⟨⟨fun h => estimate_score_out_of_range e h true, fun h => ?_⟩, fun h0 h1 => ?_⟩
  · by_contra hno
    push_neg at hno
    obtain ⟨v, hv⟩ := estimate_score_in_range_ok e ca (by omega) (by omega) true
    rw [hv] at h
    exact Except.noConfusion h
  · refine ⟨fun m v hm hv => estimate_score_exact e ca m v h0 h1 hm hv true,
      fun hnone => ⟨fun f hf => estimate_score_factor e ca f h0 h1 hnone hf true,
        fun hcf => ?_⟩⟩
    rw [estimate_score_logistic e ca h0 h1 hnone hcf, estimate_with_logistic_eq e hmm ca]

/-- Witness for C1: on the default estimator, `estimate_score 46` raises the
range error and `estimate_score 3` takes the logistic path. -/
theorem estimate_score_contract_witness :
    TriEstimator.default.estimate_score 46 true =
      .error (.correctAnswersRange 45)
    ∧ TriEstimator.default.estimate_score 3 true = .ok ((300 : ℝ) + (900 - 300) *
        (1 / (1 + Real.exp (-(((3 : ℝ) / 45 - 0.5) / 0.15))))) := by
  constructor
  · exact (estimate_score_contract TriEstimator.default (by norm_num [TriEstimator.default]) 46).1.mp (by decide)
  · have h := (((estimate_score_contract TriEstimator.default
      (by norm_num [TriEstimator.default]) 3).2
      (by decide) (by decide)).2 rfl).2 rfl
    rw [h]
    norm_num [TriEstimator.default]

/-! ## Evaluation helpers for concrete calibrated states -/

theorem except_ok_bind {ε α β : Type} (a : α) (f : α → Except ε β) :
    (Except.ok a >>= f : Except ε β) = f a := rfl

/-- `set_historical_data [10, 20] [100, 200]` on the default estimator yields
exactly `calibLow`. -/
theorem calibLow_shd :
    TriEstimator.default.set_historical_data [10, 20] [100, 200] = .ok calibLow := by
  unfold TriEstimator.set_historical_data
  norm_num [conversionFactors, medianQ, sortList, insertSorted, buildScoreMap,
    groupScores, meanQ, calibLow, TriEstimator.default]

/-- Exact-match evaluation: `calibLow.estimate_score 10 = 100`. -/
theorem calibLow_estimate_10 : calibLow.estimate_score 10 true = .ok 100 := by
  rw [estimate_score_exact calibLow 10 [(10, 100), (20, 200)] 100 (by decide) (by decide) rfl rfl true]
  norm_num

/-- Factor-path evaluation: `calibLow.estimate_score 0 = 10 · 0 = 0`. -/
theorem calibLow_estimate_0 : calibLow.estimate_score 0 true = .ok 0 := by
  rw [estimate_score_factor calibLow 0 10 (by decide) (by decide) rfl rfl true]
  norm_num

/-- Range evaluation on `calibLow` (residuals are all 0, growth factor 1.15,
so the band collapses onto the clipped base). -/
theorem calibLow_range_10 : calibLow.estimate_score_range 10 = some (300, 300, 300) := by
  norm_num [TriEstimator.estimate_score_range, TriEstimator.growth_factor, calibLow,
    TriEstimator.default, listMin, listMax, medianQ, sortList, insertSorted,
    clipQ, weightedAvgQ, List.range_succ]

theorem calibLow_range_0 : calibLow.estimate_score_range 0 = some (300, 300, 300) := by
  norm_num [TriEstimator.estimate_score_range, TriEstimator.growth_factor, calibLow,
    TriEstimator.default, listMin, listMax, medianQ, sortList, insertSorted,
    clipQ, weightedAvgQ, List.range_succ]

/-- Full pipeline evaluation: `calibLowCalc.calculate_score 10 0 0 0 500`
succeeds and returns `resultLow`. -/
theorem calibLowCalc_eval :
    calibLowCalc.calculate_score 10 0 0 0 500 = .ok resultLow := by
  unfold TriCalculator.calculate_score
  rw [if_neg (by norm_num)]
  simp only [calibLowCalc, calibLow_estimate_10, calibLow_estimate_0,
    calibLow_range_10, calibLow_range_0, ExamArea.build, except_ok_bind]
  norm_num [ExamResult.build, resultLow]
  rfl

/-! ## Claim C2 -/

theorem except_bind_ok_elim {ε α β : Type} {x : Except ε α} {f : α → Except ε β}
    {b : β} (h : (x >>= f) = .ok b) : ∃ a, x = .ok a ∧ f a = .ok b := by
  cases x with
  | error e => exact Except.noConfusion h
  | ok a => exact ⟨a, rfl, h⟩

/-- A successful `ExamResult` construction pins every field to its argument and
certifies that the five validated scores lie in `[0, 1000]`. -/
theorem examResult_build_ok {ms ls ns hs es : ℝ}
    {mp mc mo lp lc lo sp sc so hp hc ho : Option ℝ} {r : ExamResult}
    (h : ExamResult.build ms ls ns hs es mp mc mo lp lc lo sp sc so hp hc ho = .ok r) :
    r = ⟨ms, ls, ns, hs, es, mp, mc, mo, lp, lc, lo, sp, sc, so, hp, hc, ho⟩
    ∧ (0 ≤ ms ∧ ms ≤ 1000) ∧ (0 ≤ ls ∧ ls ≤ 1000) ∧ (0 ≤ ns ∧ ns ≤ 1000)
    ∧ (0 ≤ hs ∧ hs ≤ 1000) ∧ (0 ≤ es ∧ es ≤ 1000) := by
  unfold ExamResult.build at h
  split at h
  · exact absurd h (by simp)
  next h1 =>
    split at h
    · exact absurd h (by simp)
    next h2 =>
      split at h
      · exact absurd h (by simp)
      next h3 =>
        split at h
        · exact absurd h (by simp)
        next h4 =>
          split at h
          · exact absurd h (by simp)
          next h5 =>
            cases h
            push_neg at h1 h2 h3 h4 h5
            exact ⟨rfl, h1, h2, h3, h4, h5⟩

/-- Counterexample to C2 as stated: the "higher layer" does not bound
factor-path scores to `[300, 1000]`.  After calibrating every estimator with
`set_historical_data [10, 20] [100, 200]` (personal factor 10),
`calculate_score 10 0 0 0 500` succeeds and records a Mathematics score of
100 — below 300 — in the returned `ExamResult`; the layer's validation is
the `[0, 1000]` check of `ExamResult.__post_init__`. -/
theorem calculate_score_band_counterexample :
    TriEstimator.default.set_historical_data [10, 20] [100, 200] = .ok calibLow
    ∧ calibLowCalc.calculate_score 10 0 0 0 500 = .ok resultLow
    ∧ resultLow.mathematics_score = 100
    ∧ ¬ (300 ≤ resultLow.mathematics_score) :=
  ⟨calibLow_shd, calibLowCalc_eval, rfl, by norm_num [resultLow]⟩

/-- **C2 (amended).** For every valid `correct_answers`, with no personal
calibration active (and sane parameters `min_score ≤ max_score`) the result of
`estimate_score` lies in `[min_score, max_score]`; when a personal factor is
used the estimator's result is unconstrained, and the higher layer
(`ExamResult.__post_init__` inside `calculate_score`) enforces the bound
`[0, 1000]` — not `[300, 1000]` — on every per-area score recorded in any
`ExamResult` it produces (failing construction instead of clamping). -/
theorem estimate_score_bounds_amended :
    (∀ e : TriEstimator, e.min_score ≤ e.max_score → e.scoreMap = none →
      e.conversionFactor = none →
      ∀ ca : ℤ, 0 ≤ ca → ca ≤ (e.total_questions : ℤ) →
      ∃ v, e.estimate_score ca true = .ok v ∧
        (e.min_score : ℝ) ≤ v ∧ v ≤ (e.max_score : ℝ))
    ∧ (∀ (c : TriCalculator) (m l n h : ℤ) (es : ℚ) (r : ExamResult),
        c.calculate_score m l n h es = .ok r →
        (0 ≤ r.mathematics_score ∧ r.mathematics_score ≤ 1000) ∧
        (0 ≤ r.languages_score ∧ r.languages_score ≤ 1000) ∧
        (0 ≤ r.natural_sciences_score ∧ r.natural_sciences_score ≤ 1000) ∧
        (0 ≤ r.human_sciences_score ∧ r.human_sciences_score ≤ 1000)) := by
  constructor
  · intro e hmm hmap hcf ca h0 h1
    have hb : e.scoreMap.bind (fun m => lookupScore m ca) = none := by
      rw [hmap]; rfl
    exact ⟨e.estimate_with_logistic ca, estimate_score_logistic e ca h0 h1 hb hcf,
      estimate_with_logistic_bounds e hmm ca⟩
  · intro c m l n h es r hok
    unfold TriCalculator.calculate_score at hok
    split at hok
    · exact Except.noConfusion hok
    · obtain ⟨a1, -, hok⟩ := except_bind_ok_elim hok
      obtain ⟨a2, -, hok⟩ := except_bind_ok_elim hok
      obtain ⟨a3, -, hok⟩ := except_bind_ok_elim hok
      obtain ⟨a4, -, hok⟩ := except_bind_ok_elim hok
      obtain ⟨a5, -, hok⟩ := except_bind_ok_elim hok
      obtain ⟨ms, -, hok⟩ := except_bind_ok_elim hok
      obtain ⟨ls, -, hok⟩ := except_bind_ok_elim hok
      obtain ⟨ns, -, hok⟩ := except_bind_ok_elim hok
      obtain ⟨hs, -, hok⟩ := except_bind_ok_elim hok
      obtain ⟨hr, hb1, hb2, hb3, hb4, hb5, -⟩ := examResult_build_ok hok
      subst hr
      exact ⟨hb1, hb2, hb3, hb4⟩

/-- Witness for C2 (amended): the uncalibrated default estimator at
`ca = 7` stays within `[300, 900]`, and the concrete calibrated pipeline's
result has all four per-area scores in `[0, 1000]`. -/
theorem estimate_score_bounds_amended_witness :
    (∃ v, TriEstimator.default.estimate_score 7 true = .ok v ∧
      (300 : ℝ) ≤ v ∧ v ≤ 900)
    ∧ ((0 ≤ resultLow.mathematics_score ∧ resultLow.mathematics_score ≤ 1000) ∧
        (0 ≤ resultLow.languages_score ∧ resultLow.languages_score ≤ 1000) ∧
        (0 ≤ resultLow.natural_sciences_score ∧ resultLow.natural_sciences_score ≤ 1000) ∧
        (0 ≤ resultLow.human_sciences_score ∧ resultLow.human_sciences_score ≤ 1000)) := by
  constructor
  · have h := estimate_score_bounds_amended.1 TriEstimator.default
      (by norm_num [TriEstimator.default]) rfl rfl 7 (by decide) (by decide)
    simpa [TriEstimator.default] using h
  · exact estimate_score_bounds_amended.2 calibLowCalc 10 0 0 0 500 resultLow
      calibLowCalc_eval

/-! ## Claim C5 -/

theorem mem_insertSorted {α : Type} [LinearOrder α] {x y : α} {l : List α} :
    y ∈ insertSorted x l ↔ y = x ∨ y ∈ l := by
  induction l with
  | nil => simp [insertSorted]
  | cons a as ih =>
    simp only [insertSorted]
    split
    · simp [List.mem_cons]
    · simp only [List.mem_cons, ih]
      tauto

theorem mem_sortList {α : Type} [LinearOrder α] {y : α} {l : List α} :
    y ∈ sortList l ↔ y ∈ l := by
  induction l with
  | nil => simp [sortList]
  | cons a as ih => simp [sortList, mem_insertSorted, ih]

/-- The median of a list of nonnegative rationals is nonnegative. -/
theorem medianQ_nonneg {l : List ℚ} (h : ∀ x ∈ l, 0 ≤ x) : 0 ≤ medianQ l := by
  have hget : ∀ i : ℕ, 0 ≤ ((sortList l)[i]?.getD 0) := by
    intro i
    cases hgi : (sortList l)[i]? with
    | none => simp
    | some v =>
      obtain ⟨hlt, rfl⟩ := List.getElem?_eq_some_iff.mp hgi
      simpa using h _ (mem_sortList.mp (List.getElem_mem hlt))
  simp only [medianQ]
  split
  · exact hget _
  · have h1 := hget (l.length / 2 - 1)
    have h2 := hget (l.length / 2)
    positivity

/-- Per-point conversion factors of nonnegative scores are nonnegative. -/
theorem conversionFactors_nonneg {pts : List (ℤ × ℚ)} (h : ∀ p ∈ pts, 0 ≤ p.2) :
    ∀ x ∈ conversionFactors pts, 0 ≤ x := by
  intro x hx
  unfold conversionFactors at hx
  simp only [List.mem_map, List.mem_filter, decide_eq_true_eq] at hx
  obtain ⟨p, ⟨hp, hpos⟩, rfl⟩ := hx
  have h1 : (0 : ℚ) < (p.1 : ℚ) := by exact_mod_cast hpos
  exact div_nonneg (h p hp) h1.le

/-- The conversion factor a successful non-no-op `set_historical_data` call
leaves behind: either `None` (no point had a positive count) or the median of
the per-point factors of the supplied data. -/
theorem shd_conversionFactor_cases {e e' : TriEstimator} {cas : List ℤ}
    {scores : List ℚ} (h : e.set_historical_data cas scores = .ok e')
    (h2 : 2 ≤ cas.length) (hl : cas.length = scores.length) :
    e'.conversionFactor = none ∨
    e'.conversionFactor = some (medianQ (conversionFactors (cas.zip scores))) := by
  unfold TriEstimator.set_historical_data at h
  rw [if_neg (by simp [hl]), if_neg (by omega)] at h
  simp only at h
  split at h
  · cases h; right; rfl
  · cases h; left; rfl

/-- **C5.** Monotonicity of `estimate_score` in `correct_answers` over `[0, 45]`
(with sane parameters `min_score ≤ max_score`, `total_questions > 0`): on the
logistic path (no calibration at all), and on the personal-linear-factor path
(calibration derived from non-negative historical scores, comparing two counts
that both miss the exact-match table), a larger count never gets a smaller
estimate. -/
theorem estimate_score_monotone :
    (∀ e : TriEstimator, e.min_score ≤ e.max_score → 0 < e.total_questions →
      e.scoreMap = none → e.conversionFactor = none →
      ∀ ca1 ca2 : ℤ, 0 ≤ ca1 → ca1 ≤ ca2 → ca2 ≤ (e.total_questions : ℤ) →
      ∀ v1 v2 : ℝ, e.estimate_score ca1 true = .ok v1 →
        e.estimate_score ca2 true = .ok v2 → v1 ≤ v2)
    ∧ (∀ (e e' : TriEstimator) (cas : List ℤ) (scores : List ℚ),
        (∀ s ∈ scores, 0 ≤ s) → 2 ≤ cas.length → cas.length = scores.length →
        e.set_historical_data cas scores = .ok e' →
        ∀ f : ℚ, e'.conversionFactor = some f →
        ∀ ca1 ca2 : ℤ, 0 ≤ ca1 → ca1 ≤ ca2 → ca2 ≤ (e'.total_questions : ℤ) →
        e'.scoreMap.bind (fun m => lookupScore m ca1) = none →
        e'.scoreMap.bind (fun m => lookupScore m ca2) = none →
        ∀ v1 v2 : ℝ, e'.estimate_score ca1 true = .ok v1 →
          e'.estimate_score ca2 true = .ok v2 → v1 ≤ v2) := by
  constructor
  · intro e hmm htq hmap hcf ca1 ca2 h0 hle h2 v1 v2 hv1 hv2
    have hb1 : e.scoreMap.bind (fun m => lookupScore m ca1) = none := by rw [hmap]; rfl
    have hb2 : e.scoreMap.bind (fun m => lookupScore m ca2) = none := by rw [hmap]; rfl
    rw [estimate_score_logistic e ca1 h0 (by omega) hb1 hcf] at hv1
    rw [estimate_score_logistic e ca2 (by omega) h2 hb2 hcf] at hv2
    cases hv1; cases hv2
    exact estimate_with_logistic_mono e hmm htq hle
  · intro e e' cas scores hnn h2 hl hshd f hf ca1 ca2 h0 hle hca2 hb1 hb2 v1 v2 hv1 hv2
    have hmed : f = medianQ (conversionFactors (cas.zip scores)) := by
      rcases shd_conversionFactor_cases hshd h2 hl with hc | hc
      · rw [hc] at hf; exact Option.noConfusion hf
      · rw [hc] at hf; exact (Option.some.injEq _ _).mp hf.symm
    have hfnn : 0 ≤ f := by
      rw [hmed]
      exact medianQ_nonneg (conversionFactors_nonneg
        (fun p hp => hnn p.2 (List.of_mem_zip hp).2))
    rw [estimate_score_factor e' ca1 f h0 (by omega) hb1 hf true] at hv1
    rw [estimate_score_factor e' ca2 f (by omega) hca2 hb2 hf true] at hv2
    cases hv1; cases hv2
    have : f * (ca1 : ℚ) ≤ f * (ca2 : ℚ) :=
      mul_le_mul_of_nonneg_left (by exact_mod_cast hle) hfnn
    exact_mod_cast this

/-- Witness for C5: logistic path `3 ≤ 5` on the default estimator, and
factor path `0 ≤ 45` on the `calibLow` calibration. -/
theorem estimate_score_monotone_witness :
    TriEstimator.default.estimate_with_logistic 3 ≤
      TriEstimator.default.estimate_with_logistic 5
    ∧ (0 : ℝ) ≤ ((10 * (45 : ℚ) : ℚ) : ℝ) := by
  constructor
  · exact estimate_score_monotone.1 TriEstimator.default
      (by norm_num [TriEstimator.default]) (by norm_num [TriEstimator.default])
      rfl rfl 3 5 (by decide) (by decide) (by decide) _ _
      (estimate_score_logistic TriEstimator.default 3 (by decide) (by decide) rfl rfl)
      (estimate_score_logistic TriEstimator.default 5 (by decide) (by decide) rfl rfl)
  · exact estimate_score_monotone.2 TriEstimator.default calibLow [10, 20] [100, 200]
      (by norm_num) (by decide) (by decide) calibLow_shd 10 rfl 0 45
      (by decide) (by decide) (by decide) rfl rfl 0 ((10 * (45 : ℚ) : ℚ) : ℝ)
      calibLow_estimate_0
      (estimate_score_factor calibLow 45 10 (by decide) (by decide) rfl rfl true)

/-! ## Claim C6 -/

theorem find?_map_keys (keys : List ℤ) (g : ℤ → ℚ) (ca : ℤ) (h : ca ∈ keys) :
    (keys.map (fun k => (k, g k))).find? (fun p => p.1 = ca) = some (ca, g ca) := by
  induction keys with
  | nil => cases h
  | cons k ks ih =>
    rw [List.map_cons]
    by_cases hk : k = ca
    · subst hk
      exact List.find?_cons_of_pos _ (by simp)
    · rw [List.find?_cons_of_neg _ (by simpa using hk)]
      rcases List.mem_cons.mp h with h | h
      · exact absurd h.symm hk
      · exact ih h

/-- Looking up a count that occurs in the historical data hits the
exact-match table at the mean of the matching scores. -/
theorem lookupScore_buildScoreMap (pts : List (ℤ × ℚ)) (ca : ℤ)
    (h : ca ∈ pts.map Prod.fst) :
    lookupScore (buildScoreMap pts) ca = some (meanQ (groupScores pts ca)) := by
  have hmem : ca ∈ sortList (pts.map Prod.fst).dedup :=
    mem_sortList.mpr (List.mem_dedup.mpr h)
  unfold lookupScore buildScoreMap
  rw [find?_map_keys _ _ _ hmem]
  rfl

/-- Field values of the state a non-degenerate `set_historical_data` call
produces (≥ 2 points, at least one with a positive count). -/
theorem shd_ok_fields {e e' : TriEstimator} {cas : List ℤ} {scores : List ℚ}
    (h : e.set_historical_data cas scores = .ok e')
    (h2 : 2 ≤ cas.length) (hl : cas.length = scores.length)
    (hne : conversionFactors (cas.zip scores) ≠ []) :
    e'.total_questions = e.total_questions ∧
    e'.conversionFactor = some (medianQ (conversionFactors (cas.zip scores))) ∧
    e'.scoreMap = some (buildScoreMap (cas.zip scores)) := by
  unfold TriEstimator.set_historical_data at h
  rw [if_neg (by simp [hl]), if_neg (by omega)] at h
  simp only at h
  rw [if_pos (fun hc => hne (List.length_eq_zero.mp hc))] at h
  cases h
  exact ⟨rfl, rfl, rfl⟩

/-- Counterexample to C6 as stated: `set_historical_data` does not validate
the supplied counts against `total_questions`, so a count of 50 enters the
exact-match table of a 45-question estimator, yet `estimate_score 50` raises
the `InvalidInput` range error instead of returning the stored mean (600). -/
theorem round_trip_counterexample :
    TriEstimator.default.set_historical_data [50, 20] [600, 500] = .ok outOfRangeCalib
    ∧ (50 : ℤ) ∈ ([50, 20] : List ℤ)
    ∧ lookupScore [((20 : ℤ), (500 : ℚ)), (50, 600)] 50 = some 600
    ∧ outOfRangeCalib.estimate_score 50 true = .error (.correctAnswersRange 45) := by
  refine ⟨?_, by decide, by decide, ?_⟩
  · norm_num [TriEstimator.set_historical_data, conversionFactors, medianQ, sortList,
      insertSorted, buildScoreMap, groupScores, meanQ, outOfRangeCalib, TriEstimator.default]
  · exact estimate_score_out_of_range outOfRangeCalib (Or.inr (by decide)) true

/-- **C6 (amended).** After `set_historical_data` succeeds with ≥ 2 points of
which at least one has a positive count, the stored personal linear factor is
exactly the median of `score/correct_answers` over the points with positive
count (non-positive counts skipped), and for every count appearing in the
supplied list *that lies within the estimator's valid range
`[0, total_questions]`*, `estimate_score` of that count returns exactly the
mean of the supplied scores sharing that count (the exact-match table taking
precedence over the linear factor).  The range restriction is forced:
`set_historical_data` never validates counts, while `estimate_score` rejects
out-of-range ones. -/
theorem set_historical_data_round_trip (e e' : TriEstimator)
    (cas : List ℤ) (scores : List ℚ)
    (h2 : 2 ≤ cas.length) (hl : cas.length = scores.length)
    (hpos : ∃ p ∈ cas.zip scores, 0 < p.1)
    (hshd : e.set_historical_data cas scores = .ok e') :
    e'.conversionFactor = some (medianQ (conversionFactors (cas.zip scores)))
    ∧ ∀ ca : ℤ, ca ∈ cas → 0 ≤ ca → ca ≤ (e'.total_questions : ℤ) →
        e'.estimate_score ca true =
          .ok ((meanQ (groupScores (cas.zip scores) ca) : ℚ) : ℝ) := by
  have hne : conversionFactors (cas.zip scores) ≠ [] := by
    obtain ⟨p, hp, hppos⟩ := hpos
    intro hemp
    have : p.2 / (p.1 : ℚ) ∈ conversionFactors (cas.zip scores) := by
      unfold conversionFactors
      exact List.mem_map_of_mem _ (List.mem_filter.mpr ⟨hp, by simpa using hppos⟩)
    rw [hemp] at this
    cases this
  obtain ⟨htq, hcf, hmap⟩ := shd_ok_fields hshd h2 hl hne
  refine ⟨hcf, fun ca hca h0 h1 => ?_⟩
  have hkeys : ca ∈ (cas.zip scores).map Prod.fst := by
    rw [List.map_fst_zip cas scores (by omega)]
    exact hca
  exact estimate_score_exact e' ca (buildScoreMap (cas.zip scores)) _ h0 h1 hmap
    (lookupScore_buildScoreMap _ _ hkeys) true

/-- `set_historical_data [20, 30] [500, 650]` on the default estimator yields
exactly `roundTripEst`. -/
theorem roundTrip_shd :
    TriEstimator.default.set_historical_data [20, 30] [500, 650] = .ok roundTripEst := by
  norm_num [TriEstimator.set_historical_data, conversionFactors, medianQ, sortList,
    insertSorted, buildScoreMap, groupScores, meanQ, roundTripEst, TriEstimator.default]

/-- Witness for C6 (amended): the spec's round-trip example — after
`set_historical_data [20, 30] [500, 650]`, the stored factor is the median
`70/3` of `{25, 65/3}`, `estimate_score 20 = 500` and
`estimate_score 30 = 650` exactly. -/
theorem set_historical_data_round_trip_witness :
    roundTripEst.conversionFactor =
      some (medianQ (conversionFactors ([(20 : ℤ), 30].zip ([500, 650] : List ℚ))))
    ∧ roundTripEst.estimate_score 20 true = .ok 500
    ∧ roundTripEst.estimate_score 30 true = .ok 650 := by
  have h := set_historical_data_round_trip TriEstimator.default roundTripEst
    [20, 30] [500, 650] (by decide) (by decide) ⟨(20, 500), by decide, by decide⟩
    roundTrip_shd
  refine ⟨h.1, ?_, ?_⟩
  · have h20 := h.2 20 (by decide) (by decide) (by decide)
    rw [h20]
    norm_num [meanQ, groupScores]
  · have h30 := h.2 30 (by decide) (by decide) (by decide)
    rw [h30]
    norm_num [meanQ, groupScores]

/-! ## Claim C8 -/

/-- **C8.** `calculate_area_score(Essay, ·)` and
`get_confidence_interval(Essay, ·)` both fail with their named
`UnsupportedOperation` errors (essay has no estimation model); for every
non-essay objective area both delegate to that area's estimator. -/
theorem essay_delegation (c : TriCalculator) (ca : ℤ) (confidence : ℝ) :
    c.calculate_area_score .essay ca = .error .essayNotCalculated
    ∧ c.get_confidence_interval .essay ca confidence = .error .essayNoConfidenceInterval
    ∧ ∀ a : AreaType, a ≠ .essay →
        ∃ e : TriEstimator, c.estimatorFor a = some e ∧
          c.calculate_area_score a ca = e.estimate_score ca true ∧
          c.get_confidence_interval a ca confidence =
            e.get_confidence_interval ca confidence := by
  refine ⟨rfl, rfl, fun a ha => ?_⟩
  cases a
  case essay => exact absurd rfl ha
  all_goals exact ⟨_, rfl, rfl, rfl⟩

/-- Witness for C8 at the default calculator, `ca = 1`, Mathematics. -/
theorem essay_delegation_witness :
    TriCalculator.default.calculate_area_score .essay 1 = .error .essayNotCalculated
    ∧ TriCalculator.default.get_confidence_interval .essay 1 0.95 =
        .error .essayNoConfidenceInterval
    ∧ ∃ e : TriEstimator,
        TriCalculator.default.estimatorFor .mathematics = some e ∧
        TriCalculator.default.calculate_area_score .mathematics 1 =
          e.estimate_score 1 true ∧
        TriCalculator.default.get_confidence_interval .mathematics 1 0.95 =
          e.get_confidence_interval 1 0.95 := by
  obtain ⟨h1, h2, h3⟩ := essay_delegation TriCalculator.default 1 0.95
  exact ⟨h1, h2, h3 .mathematics (by decide)⟩

/-! ## Claim C9 -/

/-- **C9.** `calculate_score` fails with the `InvalidInput` error citing the
`[0, 1000]` bound whenever `essay_score < 0` or `essay_score > 1000`; for any
call that returns an `ExamResult`, its `essay_score` equals the input exactly,
passed through unmodified and uncalculated. -/
theorem essay_score_validation (c : TriCalculator) (m l n h : ℤ) (es : ℚ) :
    ((es < 0 ∨ 1000 < es) → c.calculate_score m l n h es = .error .essayScoreRange)
    ∧ (∀ r : ExamResult, c.calculate_score m l n h es = .ok r →
        r.essay_score = (es : ℝ)) := by
  constructor
  · intro hbad
    unfold TriCalculator.calculate_score
    rw [if_pos hbad]
  · intro r hok
    unfold TriCalculator.calculate_score at hok
    split at hok
    · exact Except.noConfusion hok
    · obtain ⟨a1, -, hok⟩ := except_bind_ok_elim hok
      obtain ⟨a2, -, hok⟩ := except_bind_ok_elim hok
      obtain ⟨a3, -, hok⟩ := except_bind_ok_elim hok
      obtain ⟨a4, -, hok⟩ := except_bind_ok_elim hok
      obtain ⟨a5, -, hok⟩ := except_bind_ok_elim hok
      obtain ⟨ms, -, hok⟩ := except_bind_ok_elim hok
      obtain ⟨ls, -, hok⟩ := except_bind_ok_elim hok
      obtain ⟨ns, -, hok⟩ := except_bind_ok_elim hok
      obtain ⟨hs, -, hok⟩ := except_bind_ok_elim hok
      obtain ⟨hr, -⟩ := examResult_build_ok hok
      subst hr
      rfl

/-- Witness for C9: `essay_score = 1500` fails with the named error
(the spec's own example), and the concrete successful pipeline passes its
essay score 500 through verbatim. -/
theorem essay_score_validation_witness :
    calibLowCalc.calculate_score 10 0 0 0 1500 = .error .essayScoreRange
    ∧ resultLow.essay_score = ((500 : ℚ) : ℝ) :=
  ⟨(essay_score_validation calibLowCalc 10 0 0 0 1500).1 (by norm_num),
   (essay_score_validation calibLowCalc 10 0 0 0 500).2 resultLow calibLowCalc_eval⟩

/-! ## Claim C10 -/

theorem except_error_bind {ε α β : Type} (e : ε) (f : α → Except ε β) :
    (Except.error e >>= f : Except ε β) = .error e := rfl

/-- An out-of-range count makes `ExamArea` construction raise one of its two
validation errors. -/
theorem examArea_build_error (a : AreaType) (tq : ℕ) (ca : ℤ) (s : Option ℝ)
    (h : ca < 0 ∨ (tq : ℤ) < ca) :
    ∃ err, ExamArea.build a tq ca s = .error err ∧ err.isExamAreaError = true := by
  unfold ExamArea.build
  by_cases hneg : ca < 0
  · rw [if_pos hneg]
    exact ⟨_, rfl, rfl⟩
  · rw [if_neg hneg, if_pos (by omega)]
    exact ⟨_, rfl, rfl⟩

/-- An in-range count makes `ExamArea` construction succeed. -/
theorem examArea_build_ok (a : AreaType) (tq : ℕ) (ca : ℤ) (s : Option ℝ)
    (h0 : 0 ≤ ca) (h1 : ca ≤ (tq : ℤ)) :
    ExamArea.build a tq ca s = .ok ⟨a, tq, ca, s⟩ := by
  unfold ExamArea.build
  rw [if_neg (by omega), if_neg (by omega)]

/-- Counterexample to C10 as stated: when the essay score is also invalid, the
essay check fires first, so a call with a negative Mathematics count fails
with the essay-range error, which is not an `ExamArea`-construction error. -/
theorem area_validation_counterexample :
    TriCalculator.default.calculate_score (-1) 0 0 0 1500 = .error .essayScoreRange
    ∧ PyErr.essayScoreRange.isExamAreaError = false := by
  constructor
  · unfold TriCalculator.calculate_score
    rw [if_pos (by norm_num)]
  · rfl

/-- **C10 (amended).** For every `calculate_score` call whose essay score
passes its own validation (which runs first) and in which some objective
area's correct-answer count is negative or exceeds `total_questions`, the call
fails with an error raised during `ExamArea` construction — before any score
estimation runs — and consequently never produces an `ExamResult`. -/
theorem area_validation_amended (c : TriCalculator) (m l n h : ℤ) (es : ℚ)
    (hes : 0 ≤ es ∧ es ≤ 1000)
    (hbad : (m < 0 ∨ (c.total_questions : ℤ) < m) ∨
            (l < 0 ∨ (c.total_questions : ℤ) < l) ∨
            (n < 0 ∨ (c.total_questions : ℤ) < n) ∨
            (h < 0 ∨ (c.total_questions : ℤ) < h)) :
    ∃ err, c.calculate_score m l n h es = .error err ∧
      err.isExamAreaError = true ∧
      ∀ r : ExamResult, c.calculate_score m l n h es ≠ .ok r := by
  have hmain : ∃ err, c.calculate_score m l n h es = .error err ∧
      err.isExamAreaError = true := by
    unfold TriCalculator.calculate_score
    rw [if_neg (by push_neg; exact hes)]
    by_cases hm : m < 0 ∨ (c.total_questions : ℤ) < m
    · obtain ⟨err, herr, hcl⟩ := examArea_build_error .mathematics c.total_questions m none hm
      exact ⟨err, by rw [herr, except_error_bind], hcl⟩
    · push_neg at hm
      rw [examArea_build_ok .mathematics c.total_questions m none hm.1 hm.2, except_ok_bind]
      by_cases hl2 : l < 0 ∨ (c.total_questions : ℤ) < l
      · obtain ⟨err, herr, hcl⟩ := examArea_build_error .languages c.total_questions l none hl2
        exact ⟨err, by rw [herr, except_error_bind], hcl⟩
      · push_neg at hl2
        rw [examArea_build_ok .languages c.total_questions l none hl2.1 hl2.2, except_ok_bind]
        by_cases hn : n < 0 ∨ (c.total_questions : ℤ) < n
        · obtain ⟨err, herr, hcl⟩ :=
            examArea_build_error .natural_sciences c.total_questions n none hn
          exact ⟨err, by rw [herr, except_error_bind], hcl⟩
        · push_neg at hn
          rw [examArea_build_ok .natural_sciences c.total_questions n none hn.1 hn.2,
            except_ok_bind]
          by_cases hh : h < 0 ∨ (c.total_questions : ℤ) < h
          · obtain ⟨err, herr, hcl⟩ :=
              examArea_build_error .human_sciences c.total_questions h none hh
            exact ⟨err, by rw [herr, except_error_bind], hcl⟩
          · exfalso
            push_neg at hh
            rcases hbad with hb | hb | hb | hb <;> omega
  obtain ⟨err, heq, hcl⟩ := hmain
  exact ⟨err, heq, hcl, fun r hr => by rw [heq] at hr; exact Except.noConfusion hr⟩

/-- Witness for C10 (amended): `mathematics = -1` with a valid essay score
fails with an `ExamArea` validation error and never yields a result. -/
theorem area_validation_amended_witness :
    ((0 : ℚ) ≤ 500 ∧ (500 : ℚ) ≤ 1000)
    ∧ ∃ err, TriCalculator.default.calculate_score (-1) 0 0 0 500 = .error err ∧
        err.isExamAreaError = true ∧
        ∀ r : ExamResult, TriCalculator.default.calculate_score (-1) 0 0 0 500 ≠ .ok r :=
  ⟨by norm_num, area_validation_amended TriCalculator.default (-1) 0 0 0 500
    (by norm_num) (Or.inl (Or.inl (by norm_num)))⟩

/-! ## The standard normal CDF and quantile function (for C4) -/

open MeasureTheory ProbabilityTheory Set Filter

theorem gaussPDF_pos (x : ℝ) : 0 < gaussianPDFReal 0 1 x :=
  gaussianPDFReal_pos 0 1 x (by norm_num)

theorem gaussPDF_integrable : Integrable (gaussianPDFReal 0 1) :=
  integrable_gaussianPDFReal 0 1

theorem gaussPDF_total : ∫ x : ℝ, gaussianPDFReal 0 1 x = 1 :=
  integral_gaussianPDFReal_eq_one 0 (by norm_num)

theorem stdNormCDF_strictMono : StrictMono stdNormCDF := by
  intro a b hab
  have hdiff : stdNormCDF b - stdNormCDF a =
      ∫ x in a..b, gaussianPDFReal 0 1 x :=
    intervalIntegral.integral_Iic_sub_Iic gaussPDF_integrable.integrableOn
      gaussPDF_integrable.integrableOn
  have hpos : 0 < ∫ x in a..b, gaussianPDFReal 0 1 x :=
    intervalIntegral.intervalIntegral_pos_of_pos
      gaussPDF_integrable.intervalIntegrable gaussPDF_pos hab
  linarith

theorem stdNormCDF_nonneg (x : ℝ) : 0 ≤ stdNormCDF x :=
  setIntegral_nonneg measurableSet_Iic (fun t _ => (gaussPDF_pos t).le)

theorem stdNormCDF_tail (x : ℝ) :
    stdNormCDF x + ∫ t in Set.Ioi x, gaussianPDFReal 0 1 t = 1 :=
  (intervalIntegral.integral_Iic_add_Ioi gaussPDF_integrable.integrableOn
    gaussPDF_integrable.integrableOn).trans gaussPDF_total

theorem stdNormCDF_pos (x : ℝ) : 0 < stdNormCDF x :=
  (stdNormCDF_nonneg (x - 1)).trans_lt
    (stdNormCDF_strictMono (show x - 1 < x by linarith))

theorem stdNormCDF_lt_one (x : ℝ) : stdNormCDF x < 1 := by
  have h := stdNormCDF_tail x
  have hIoc : 0 < ∫ t in x..(x + 1), gaussianPDFReal 0 1 t :=
    intervalIntegral.intervalIntegral_pos_of_pos
      gaussPDF_integrable.intervalIntegrable gaussPDF_pos (by linarith)
  rw [intervalIntegral.integral_of_le (by linarith)] at hIoc
  have hmono : (∫ t in Set.Ioc x (x + 1), gaussianPDFReal 0 1 t) ≤
      ∫ t in Set.Ioi x, gaussianPDFReal 0 1 t :=
    setIntegral_mono_set gaussPDF_integrable.integrableOn
      (ae_of_all _ (fun t => (gaussPDF_pos t).le))
      (Set.Ioc_subset_Ioi_self).eventuallyLE
  linarith

theorem stdNormCDF_zero : stdNormCDF 0 = 1 / 2 := by
  have heven : ∀ t : ℝ, gaussianPDFReal 0 1 (-t) = gaussianPDFReal 0 1 t := by
    intro t
    unfold ProbabilityTheory.gaussianPDFReal
    ring_nf
  have h1 : stdNormCDF 0 = ∫ t in Set.Ioi (0:ℝ), gaussianPDFReal 0 1 t := by
    calc stdNormCDF 0 = ∫ t in Set.Iic (0:ℝ), gaussianPDFReal 0 1 (-t) :=
          (setIntegral_congr_fun measurableSet_Iic (fun t _ => (heven t).symm))
      _ = ∫ t in Set.Ioi (0:ℝ), gaussianPDFReal 0 1 t := by
          have h := integral_comp_neg_Iic (0:ℝ) (gaussianPDFReal 0 1)
          rwa [neg_zero] at h
  have h2 := stdNormCDF_tail 0
  linarith

theorem stdNormCDF_continuous : Continuous stdNormCDF := by
  have heq : ∀ x : ℝ, stdNormCDF x =
      stdNormCDF 0 + ∫ t in (0:ℝ)..x, gaussianPDFReal 0 1 t := by
    intro x
    have h : stdNormCDF x - stdNormCDF 0 = ∫ t in (0:ℝ)..x, gaussianPDFReal 0 1 t :=
      intervalIntegral.integral_Iic_sub_Iic gaussPDF_integrable.integrableOn
        gaussPDF_integrable.integrableOn
    linarith
  rw [funext heq]
  exact continuous_const.add (intervalIntegral.continuous_primitive
    (fun a b => gaussPDF_integrable.intervalIntegrable) 0)

theorem tendsto_stdNormCDF_nat :
    Tendsto (fun n : ℕ => stdNormCDF n) atTop (nhds 1) := by
  have hU : (⋃ n : ℕ, Set.Iic ((n:ℝ))) = Set.univ := by
    rw [Set.eq_univ_iff_forall]
    intro x
    obtain ⟨n, hn⟩ := exists_nat_ge x
    exact Set.mem_iUnion.mpr ⟨n, hn⟩
  have h : Tendsto (fun n : ℕ => ∫ t in Set.Iic ((n:ℝ)), gaussianPDFReal 0 1 t)
      atTop (nhds (∫ t in ⋃ n : ℕ, Set.Iic ((n:ℝ)), gaussianPDFReal 0 1 t)) :=
    tendsto_setIntegral_of_monotone (fun n : ℕ => measurableSet_Iic)
      (fun n m hnm => Set.Iic_subset_Iic.mpr (by exact_mod_cast hnm))
      (by rw [hU]; exact gaussPDF_integrable.integrableOn)
  rw [hU] at h
  simpa [Measure.restrict_univ, gaussPDF_total] using h

theorem tendsto_stdNormCDF_neg_nat :
    Tendsto (fun n : ℕ => stdNormCDF (-(n:ℝ))) atTop (nhds 0) := by
  have hU : (⋃ n : ℕ, Set.Ioi (-(n:ℝ))) = Set.univ := by
    rw [Set.eq_univ_iff_forall]
    intro x
    obtain ⟨n, hn⟩ := exists_nat_gt (-x)
    exact Set.mem_iUnion.mpr ⟨n, by simpa using neg_lt.mp hn⟩
  have h : Tendsto (fun n : ℕ => ∫ t in Set.Ioi (-(n:ℝ)), gaussianPDFReal 0 1 t)
      atTop (nhds (∫ t in ⋃ n : ℕ, Set.Ioi (-(n:ℝ)), gaussianPDFReal 0 1 t)) :=
    tendsto_setIntegral_of_monotone (fun n : ℕ => measurableSet_Ioi)
      (fun n m hnm => Set.Ioi_subset_Ioi (neg_le_neg (by exact_mod_cast hnm)))
      (by rw [hU]; exact gaussPDF_integrable.integrableOn)
  rw [hU] at h
  have h1 : Tendsto (fun n : ℕ => ∫ t in Set.Ioi (-(n:ℝ)), gaussianPDFReal 0 1 t)
      atTop (nhds 1) := by
    simpa [Measure.restrict_univ, gaussPDF_total] using h
  have heq : ∀ n : ℕ, stdNormCDF (-(n:ℝ)) =
      1 - ∫ t in Set.Ioi (-(n:ℝ)), gaussianPDFReal 0 1 t := by
    intro n
    have := stdNormCDF_tail (-(n:ℝ))
    linarith
  simp_rw [heq]
  have h2 := h1.const_sub 1
  simpa using h2

theorem stdNormCDF_exists_eq {p : ℝ} (h0 : 0 < p) (h1 : p < 1) :
    ∃ x, stdNormCDF x = p := by
  obtain ⟨b, hb⟩ := ((tendsto_order.mp tendsto_stdNormCDF_nat).1 p h1).exists
  obtain ⟨a, ha⟩ := ((tendsto_order.mp tendsto_stdNormCDF_neg_nat).2 p h0).exists
  have hab : -(a:ℝ) ≤ (b:ℝ) := by
    by_contra hcon
    push_neg at hcon
    have := stdNormCDF_strictMono hcon
    linarith
  have hIcc : p ∈ Set.Icc (stdNormCDF (-(a:ℝ))) (stdNormCDF b) := ⟨ha.le, hb.le⟩
  obtain ⟨x, _, hx⟩ :=
    intermediate_value_Icc hab stdNormCDF_continuous.continuousOn hIcc
  exact ⟨x, hx⟩

theorem normPpf_stdNormCDF (x : ℝ) : normPpf (stdNormCDF x) = x :=
  Function.leftInverse_invFun stdNormCDF_strictMono.injective x

theorem stdNormCDF_normPpf {p : ℝ} (h0 : 0 < p) (h1 : p < 1) :
    stdNormCDF (normPpf p) = p :=
  Function.invFun_eq (stdNormCDF_exists_eq h0 h1)

/-- The quantile function is strictly monotone on `(0, 1)`. -/
theorem normPpf_lt {p q : ℝ} (h0 : 0 < p) (hpq : p < q) (h1 : q < 1) :
    normPpf p < normPpf q := by
  have hp := stdNormCDF_normPpf h0 (hpq.trans h1)
  have hq := stdNormCDF_normPpf (h0.trans hpq) h1
  exact stdNormCDF_strictMono.lt_iff_lt.mp (by rw [hp, hq]; exact hpq)

/-- The quantile function is positive above the median. -/
theorem normPpf_pos {p : ℝ} (hhalf : 1 / 2 < p) (h1 : p < 1) : 0 < normPpf p := by
  have hp := stdNormCDF_normPpf (by linarith) h1
  have h2 : stdNormCDF 0 < stdNormCDF (normPpf p) := by
    rw [stdNormCDF_zero, hp]
    exact hhalf
  exact stdNormCDF_strictMono.lt_iff_lt.mp h2

/-! ## Claim C4 -/

/-- `get_confidence_interval` on a successful estimate computes exactly the
clipped `score ± margin` bounds with
`margin = ppf((1+confidence)/2) × std_deviation/√total_questions`. -/
theorem gci_eval (e : TriEstimator) (ca : ℤ) (conf : ℝ) (v : ℝ)
    (hv : e.estimate_score ca true = .ok v) :
    e.get_confidence_interval ca conf = .ok
      (max (e.min_score : ℝ) (v - normPpf ((1 + conf) / 2) *
        ((e.std_deviation : ℝ) / Real.sqrt (e.total_questions : ℝ))),
       min (e.max_score : ℝ) (v + normPpf ((1 + conf) / 2) *
        ((e.std_deviation : ℝ) / Real.sqrt (e.total_questions : ℝ)))) := by
  unfold TriEstimator.get_confidence_interval
  rw [hv]
  rfl

/-- On the degenerate-range estimator (`min_score = max_score = 500`), every
estimate is 500. -/
theorem degenEst_estimate : degenEst.estimate_score 10 true = .ok 500 := by
  rw [estimate_score_logistic degenEst 10 (by decide) (by decide) rfl rfl,
    estimate_with_logistic_eq degenEst (le_refl _) 10]
  norm_num [degenEst]

/-- Counterexample to C4 as stated: at the valid confidence levels
`c1 = 2Φ(1)−1 ≈ 0.683` and `c2 = 2Φ(2)−1 ≈ 0.954` with `c1 < c2`, the
degenerate-range estimator (`min_score = max_score = 500`, accepted by the
constructor) yields the *same* interval `(500, 500)` for both levels —
clipping at both ends defeats strict widening. -/
theorem confidence_interval_counterexample :
    (0 : ℝ) < 2 * stdNormCDF 1 - 1
    ∧ 2 * stdNormCDF 1 - 1 < 2 * stdNormCDF 2 - 1
    ∧ 2 * stdNormCDF 2 - 1 < 1
    ∧ degenEst.get_confidence_interval 10 (2 * stdNormCDF 1 - 1) = .ok (500, 500)
    ∧ degenEst.get_confidence_interval 10 (2 * stdNormCDF 2 - 1) = .ok (500, 500) := by
  have hm0 : stdNormCDF 0 < stdNormCDF 1 := stdNormCDF_strictMono (by norm_num)
  have hm1 : stdNormCDF 1 < stdNormCDF 2 := stdNormCDF_strictMono (by norm_num)
  have hz := stdNormCDF_zero
  refine ⟨by linarith, by linarith, by linarith [stdNormCDF_lt_one 2], ?_, ?_⟩
  · rw [gci_eval degenEst 10 _ 500 degenEst_estimate]
    have harg : (1 + (2 * stdNormCDF 1 - 1)) / 2 = stdNormCDF 1 := by ring
    rw [harg, normPpf_stdNormCDF]
    norm_num [degenEst]
    positivity
  · rw [gci_eval degenEst 10 _ 500 degenEst_estimate]
    have harg : (1 + (2 * stdNormCDF 2 - 1)) / 2 = stdNormCDF 2 := by ring
    rw [harg, normPpf_stdNormCDF]
    norm_num [degenEst]
    positivity

/-- **C4 (amended).** For every uncalibrated estimator with sane parameters
(`min_score ≤ max_score`, `total_questions > 0`, `std_deviation ≥ 0`), valid
count, and confidence levels `0 < c1 < c2 < 1`: both intervals have the
claimed `ppf((1+c)/2) × std/√total` margin and bounds clipped into
`[min_score, max_score]`; the `c2`-interval always *contains* the
`c1`-interval; and it is *strictly* wider whenever `std_deviation > 0` and the
`c1`-interval is not already clipped at both ends to the full
`[min_score, max_score]` — strict widening fails exactly in that fully
clipped case (see the counterexample). -/
theorem confidence_interval_amended (e : TriEstimator)
    (hmm : e.min_score ≤ e.max_score) (htq : 0 < e.total_questions)
    (hstd : 0 ≤ e.std_deviation)
    (hmap : e.scoreMap = none) (hcf : e.conversionFactor = none)
    (ca : ℤ) (h0 : 0 ≤ ca) (h1 : ca ≤ (e.total_questions : ℤ))
    (c1 c2 : ℝ) (hc1 : 0 < c1) (hc12 : c1 < c2) (hc2 : c2 < 1) :
    ∃ score m1 m2 : ℝ,
      e.estimate_score ca true = .ok score ∧
      m1 = normPpf ((1 + c1) / 2) *
        ((e.std_deviation : ℝ) / Real.sqrt (e.total_questions : ℝ)) ∧
      m2 = normPpf ((1 + c2) / 2) *
        ((e.std_deviation : ℝ) / Real.sqrt (e.total_questions : ℝ)) ∧
      0 ≤ m1 ∧ m1 ≤ m2 ∧
      e.get_confidence_interval ca c1 =
        .ok (max (e.min_score : ℝ) (score - m1), min (e.max_score : ℝ) (score + m1)) ∧
      e.get_confidence_interval ca c2 =
        .ok (max (e.min_score : ℝ) (score - m2), min (e.max_score : ℝ) (score + m2)) ∧
      (e.min_score : ℝ) ≤ max (e.min_score : ℝ) (score - m2) ∧
      max (e.min_score : ℝ) (score - m2) ≤ max (e.min_score : ℝ) (score - m1) ∧
      max (e.min_score : ℝ) (score - m1) ≤ min (e.max_score : ℝ) (score + m1) ∧
      min (e.max_score : ℝ) (score + m1) ≤ min (e.max_score : ℝ) (score + m2) ∧
      min (e.max_score : ℝ) (score + m2) ≤ (e.max_score : ℝ) ∧
      (0 < e.std_deviation →
        ((e.min_score : ℝ) < score - m1 ∨ score + m1 < (e.max_score : ℝ)) →
        min (e.max_score : ℝ) (score + m1) - max (e.min_score : ℝ) (score - m1) <
          min (e.max_score : ℝ) (score + m2) - max (e.min_score : ℝ) (score - m2)) := by
  have hb : e.scoreMap.bind (fun m => lookupScore m ca) = none := by rw [hmap]; rfl
  have hsc := estimate_score_logistic e ca h0 h1 hb hcf
  obtain ⟨hlo, hhi⟩ := estimate_with_logistic_bounds e hmm ca
  have hmm2 : (e.min_score : ℝ) ≤ (e.max_score : ℝ) := by exact_mod_cast hmm
  have hzlt : normPpf ((1 + c1) / 2) < normPpf ((1 + c2) / 2) :=
    normPpf_lt (by linarith) (by linarith) (by linarith)
  have hz1 : 0 < normPpf ((1 + c1) / 2) := normPpf_pos (by linarith) (by linarith)
  have hsqrt : 0 < Real.sqrt (e.total_questions : ℝ) :=
    Real.sqrt_pos.mpr (by exact_mod_cast htq)
  have hse : 0 ≤ (e.std_deviation : ℝ) / Real.sqrt (e.total_questions : ℝ) :=
    div_nonneg (by exact_mod_cast hstd) hsqrt.le
  set score := e.estimate_with_logistic ca with hscdef
  set m1 := normPpf ((1 + c1) / 2) *
    ((e.std_deviation : ℝ) / Real.sqrt (e.total_questions : ℝ)) with hm1def
  set m2 := normPpf ((1 + c2) / 2) *
    ((e.std_deviation : ℝ) / Real.sqrt (e.total_questions : ℝ)) with hm2def
  have hm1 : 0 ≤ m1 := mul_nonneg hz1.le hse
  have hm12 : m1 ≤ m2 := mul_le_mul_of_nonneg_right hzlt.le hse
  refine ⟨score, m1, m2, hsc, hm1def, hm2def, hm1, hm12,
    gci_eval e ca c1 score hsc, gci_eval e ca c2 score hsc,
    le_max_left _ _, max_le_max (le_refl _) (by linarith),
    le_min (max_le hmm2 (by linarith)) (max_le (by linarith) (by linarith)),
    min_le_min (le_refl _) (by linarith), min_le_left _ _, ?_⟩
  intro hstdpos hunclipped
  have hsepos : 0 < (e.std_deviation : ℝ) / Real.sqrt (e.total_questions : ℝ) :=
    div_pos (by exact_mod_cast hstdpos) hsqrt
  have hm12lt : m1 < m2 := by
    rw [hm1def, hm2def]
    exact mul_lt_mul_of_pos_right hzlt hsepos
  rcases hunclipped with hL | hR
  · have hl1 : max (e.min_score : ℝ) (score - m1) = score - m1 := max_eq_right hL.le
    have hl2lt : max (e.min_score : ℝ) (score - m2) < score - m1 :=
      max_lt hL (by linarith)
    have hu : min (e.max_score : ℝ) (score + m1) ≤ min (e.max_score : ℝ) (score + m2) :=
      min_le_min (le_refl _) (by linarith)
    rw [hl1]
    linarith
  · have hu1 : min (e.max_score : ℝ) (score + m1) = score + m1 := min_eq_right hR.le
    have hu2 : score + m1 < min (e.max_score : ℝ) (score + m2) :=
      lt_min hR (by linarith)
    have hl : max (e.min_score : ℝ) (score - m2) ≤ max (e.min_score : ℝ) (score - m1) :=
      max_le_max (le_refl _) (by linarith)
    rw [hu1]
    linarith

/-- Witness for C4 (amended), at the default estimator, `ca = 10`,
`c1 = 2Φ(1)−1`, `c2 = 2Φ(2)−1` (so `0 < c1 < c2 < 1`). -/
theorem confidence_interval_amended_witness :
    ((0 : ℝ) < 2 * stdNormCDF 1 - 1
      ∧ 2 * stdNormCDF 1 - 1 < 2 * stdNormCDF 2 - 1
      ∧ 2 * stdNormCDF 2 - 1 < 1)
    ∧ ∃ score m1 m2 : ℝ,
      TriEstimator.default.estimate_score 10 true = .ok score ∧
      m1 = normPpf ((1 + (2 * stdNormCDF 1 - 1)) / 2) *
        ((TriEstimator.default.std_deviation : ℝ) /
          Real.sqrt (TriEstimator.default.total_questions : ℝ)) ∧
      m2 = normPpf ((1 + (2 * stdNormCDF 2 - 1)) / 2) *
        ((TriEstimator.default.std_deviation : ℝ) /
          Real.sqrt (TriEstimator.default.total_questions : ℝ)) ∧
      0 ≤ m1 ∧ m1 ≤ m2 ∧
      TriEstimator.default.get_confidence_interval 10 (2 * stdNormCDF 1 - 1) =
        .ok (max (TriEstimator.default.min_score : ℝ) (score - m1),
             min (TriEstimator.default.max_score : ℝ) (score + m1)) ∧
      TriEstimator.default.get_confidence_interval 10 (2 * stdNormCDF 2 - 1) =
        .ok (max (TriEstimator.default.min_score : ℝ) (score - m2),
             min (TriEstimator.default.max_score : ℝ) (score + m2)) ∧
      (TriEstimator.default.min_score : ℝ) ≤
        max (TriEstimator.default.min_score : ℝ) (score - m2) ∧
      max (TriEstimator.default.min_score : ℝ) (score - m2) ≤
        max (TriEstimator.default.min_score : ℝ) (score - m1) ∧
      max (TriEstimator.default.min_score : ℝ) (score - m1) ≤
        min (TriEstimator.default.max_score : ℝ) (score + m1) ∧
      min (TriEstimator.default.max_score : ℝ) (score + m1) ≤
        min (TriEstimator.default.max_score : ℝ) (score + m2) ∧
      min (TriEstimator.default.max_score : ℝ) (score + m2) ≤
        (TriEstimator.default.max_score : ℝ) ∧
      (0 < TriEstimator.default.std_deviation →
        ((TriEstimator.default.min_score : ℝ) < score - m1 ∨
          score + m1 < (TriEstimator.default.max_score : ℝ)) →
        min (TriEstimator.default.max_score : ℝ) (score + m1) -
          max (TriEstimator.default.min_score : ℝ) (score - m1) <
        min (TriEstimator.default.max_score : ℝ) (score + m2) -
          max (TriEstimator.default.min_score : ℝ) (score - m2)) := by
  have hm0 : stdNormCDF 0 < stdNormCDF 1 := stdNormCDF_strictMono (by norm_num)
  have hm1 : stdNormCDF 1 < stdNormCDF 2 := stdNormCDF_strictMono (by norm_num)
  have hz := stdNormCDF_zero
  refine ⟨⟨by linarith, by linarith, by linarith [stdNormCDF_lt_one 2]⟩, ?_⟩
  exact confidence_interval_amended TriEstimator.default
    (by norm_num [TriEstimator.default]) (by norm_num [TriEstimator.default])
    (by norm_num [TriEstimator.default]) rfl rfl 10 (by decide) (by decide)
    (2 * stdNormCDF 1 - 1) (2 * stdNormCDF 2 - 1)
    (by linarith) (by linarith) (by linarith [stdNormCDF_lt_one 2])
